import Mathlib

/-!
# Verification of the llm-router classification and dispatch core

Shallow embedding of the repository source:
- the complexity classifier (extractTextContent, countCodeLines,
  countKeywordMatches, the regex signal detectors, calculateComplexityScore,
  classifyRequest) from src/classifier.ts (bilingual keyword variant), and
- the tiered dispatcher (LLMRouter.routeRequest, routeStreamingRequest)
  from src/router.ts,
followed by theorems settling the frozen claims about this code.

JavaScript regular expressions used by the detectors are embedded through a
small Brzozowski-derivative matcher; each source pattern is transcribed one
to one into a regex AST value below.  JavaScript strings are embedded as
Lean strings; case folding follows the ASCII case table, and the character
classes for whitespace and word characters mirror the JavaScript classes
on the character ranges the repository exercises.
-/

/-- Sum of a list of integers (explicit recursion keeps kernel reduction cheap). -/
def sumInts : List Int → Int
  | [] => 0
  | x :: xs => x + sumInts xs

/-- Concatenation of a list of lists. -/
def concatAll {α : Type} : List (List α) → List α
  | [] => []
  | l :: ls => l ++ concatAll ls

/-- Embedding of JavaScript Array.prototype.join(sep). -/
def joinSep (sep : String) : List String → String
  | [] => ""
  | [a] => a
  | a :: rest => a ++ sep ++ joinSep sep rest

/-- Boolean prefix test on character lists (embedding of startsWith-style checks). -/
def charPrefix : List Char → List Char → Bool
  | [], _ => true
  | _ :: _, [] => false
  | a :: as, b :: bs => if a = b then charPrefix as bs else false

/-- Whether the string l has the string p as a prefix. -/
def hasPrefix (p l : String) : Bool := charPrefix p.data l.data

/-! ## Character classes of the JavaScript regexes -/

/-- The apostrophe character (code point 39). -/
def apos : Char := Char.ofNat 39

/-- The backtick character (code point 96). -/
def btick : Char := Char.ofNat 96

/-- JavaScript regex class \s (whitespace), on the code points the source exercises. -/
def isJsSpace (c : Char) : Bool :=
  c = ' ' || c = '\t' || c = '\n' || c = '\x0d' ||
  c = Char.ofNat 11 || c = Char.ofNat 12 || c = Char.ofNat 160 ||
  c = Char.ofNat 0x2028 || c = Char.ofNat 0x2029 || c = Char.ofNat 0xfeff

/-- JavaScript regex class \w: ASCII letters, digits and underscore. -/
def isWordChar (c : Char) : Bool := c.isAlphanum || c = '_'

/-- JavaScript line terminators (for the multiline anchor of the inline-code regex). -/
def isLineTerm (c : Char) : Bool :=
  c = '\n' || c = '\x0d' || c = Char.ofNat 0x2028 || c = Char.ofNat 0x2029

/-- JavaScript regex class . (any character except a line terminator). -/
def isDotChar (c : Char) : Bool := !(isLineTerm c)

/-! ## A Brzozowski-derivative regex matcher -/

/-- Regular expressions over characters; pred holds one-character classes. -/
inductive Regex where
  | fail : Regex
  | eps : Regex
  | pred : (Char → Bool) → Regex
  | seq : Regex → Regex → Regex
  | alt : Regex → Regex → Regex
  | star : Regex → Regex

namespace Regex

/-- Does the regex accept the empty string? -/
def nullable : Regex → Bool
  | .fail => false
  | .eps => true
  | .pred _ => false
  | .seq a b => nullable a && nullable b
  | .alt a b => nullable a || nullable b
  | .star _ => true

/-- Smart sequencing (keeps derivatives small). -/
def mkSeq : Regex → Regex → Regex
  | .fail, _ => .fail
  | _, .fail => .fail
  | .eps, b => b
  | a, .eps => a
  | a, b => .seq a b

/-- Smart alternation (keeps derivatives small). -/
def mkAlt : Regex → Regex → Regex
  | .fail, b => b
  | a, .fail => a
  | a, b => .alt a b

/-- Brzozowski derivative with respect to one character. -/
def deriv : Regex → Char → Regex
  | .fail, _ => .fail
  | .eps, _ => .fail
  | .pred p, c => if p c then .eps else .fail
  | .seq a b, c =>
      if nullable a then mkAlt (mkSeq (deriv a c) b) (deriv b c)
      else mkSeq (deriv a c) b
  | .alt a b, c => mkAlt (deriv a c) (deriv b c)
  | .star r, c => mkSeq (deriv r c) (.star r)

/-- Whole-list match by iterated derivatives. -/
def rmatch : Regex → List Char → Bool
  | r, [] => nullable r
  | r, c :: cs => rmatch (deriv r c) cs

end Regex

/-- One-character regex matching exactly c. -/
def rchar (c : Char) : Regex := Regex.pred (fun x => x = c)

/-- One-character regex matching c case-insensitively (ASCII folding, pattern flag i). -/
def rcharCI (c : Char) : Regex := Regex.pred (fun x => x.toLower = c)

/-- Case-sensitive literal string. -/
def rstr (s : String) : Regex :=
  s.data.foldr (fun c r => Regex.seq (rchar c) r) Regex.eps

/-- Case-insensitive literal string (written in lowercase in the patterns). -/
def rstrCI (s : String) : Regex :=
  s.data.foldr (fun c r => Regex.seq (rcharCI c) r) Regex.eps

/-- Alternation of a list of regexes. -/
def ralts : List Regex → Regex
  | [] => Regex.fail
  | [r] => r
  | r :: rs => Regex.alt r (ralts rs)

/-- Kleene plus. -/
def rplus (r : Regex) : Regex := Regex.seq r (Regex.star r)

/-- Optional (regex quantifier ?). -/
def ropt (r : Regex) : Regex := Regex.alt r Regex.eps

/-- Class \s. -/
def rws : Regex := Regex.pred isJsSpace

/-- \s* -/
def rwsStar : Regex := Regex.star rws

/-- \s+ -/
def rwsPlus : Regex := rplus rws

/-- Class \d. -/
def rdigit : Regex := Regex.pred Char.isDigit

/-- Class \w. -/
def rword : Regex := Regex.pred isWordChar

/-- A non-word character. -/
def rnonword : Regex := Regex.pred (fun c => !isWordChar c)

/-- Regex . (any character but a line terminator). -/
def rdot : Regex := Regex.pred isDotChar

/-- .* -/
def rdotStar : Regex := Regex.star rdot

/-- Any single character. -/
def ranyc : Regex := Regex.pred (fun _ => true)

/-- Arbitrary context (any characters, including line terminators). -/
def ranyStar : Regex := Regex.star ranyc

/-- Sequence of a list of regexes. -/
def rseqs : List Regex → Regex
  | [] => Regex.eps
  | [r] => r
  | r :: rs => Regex.seq r (rseqs rs)

/-- Prefix context for a pattern with no leading word-boundary assertion. -/
def ctxAny : Regex := ranyStar

/-- Prefix context realizing a leading \b before a word character:
start of string, or any prefix ending in a non-word character. -/
def ctxBoundaryW : Regex := ropt (Regex.seq ranyStar rnonword)

/-- Prefix context realizing a leading \b before a NON-word character
(JavaScript then requires the preceding character to be a word character). -/
def ctxBoundaryNW : Regex := Regex.seq ranyStar rword

/-- Suffix context for a pattern with no trailing word-boundary assertion. -/
def ctxAnyEnd : Regex := ranyStar

/-- Suffix context realizing a trailing \b after a word character:
end of string, or a non-word character follows. -/
def ctxBoundaryWEnd : Regex := ropt (Regex.seq rnonword ranyStar)

/-- Suffix context realizing a trailing \b after a NON-word character
(a word character must follow). -/
def ctxBoundaryNWEnd : Regex := Regex.seq rword ranyStar

/-- Substring search: does the pattern r, bracketed by the given left and
right contexts, match the whole text?  This is how the JavaScript
RegExp.prototype.test calls are embedded; word-boundary assertions of the
source patterns are realized in the contexts. -/
def rtestCtx (left : Regex) (r : Regex) (right : Regex) (text : String) : Bool :=
  Regex.rmatch (Regex.seq left (Regex.seq r right)) text.data

/-- Plain substring search (pattern without boundary assertions). -/
def rtest (r : Regex) (text : String) : Bool := rtestCtx ctxAny r ctxAnyEnd text

/-! ## Accented character classes under the case-insensitive flag -/

/-- The letter é under flag i (matches é and É). -/
def reA : Regex := Regex.pred (fun c => c = 'é' || c = 'É')

/-- The class [ée] under flag i. -/
def reAorE : Regex := Regex.pred (fun c => c = 'é' || c = 'É' || c.toLower = 'e')

/-- The letter è under flag i (matches è and È). -/
def rgE : Regex := Regex.pred (fun c => c = 'è' || c = 'È')

/-- The class [èe] under flag i. -/
def rgEorE : Regex := Regex.pred (fun c => c = 'è' || c = 'È' || c.toLower = 'e')

/-- The letter à under flag i (matches à and À). -/
def raGrave : Regex := Regex.pred (fun c => c = 'à' || c = 'À')

/-- The class [àa] under flag i. -/
def raGraveOrA : Regex := Regex.pred (fun c => c = 'à' || c = 'À' || c.toLower = 'a')

/-- The letter ç under flag i (matches ç and Ç). -/
def rcCedilla : Regex := Regex.pred (fun c => c = 'ç' || c = 'Ç')

/-- The class [\s,]. -/
def rwsComma : Regex := Regex.pred (fun c => isJsSpace c || c = ',')

/-- The class [\s-]. -/
def rwsDash : Regex := Regex.pred (fun c => isJsSpace c || c = '-')

/-- The group (moi|nous) of the French command patterns. -/
def rMoiNous : Regex := ralts [rstrCI "moi", rstrCI "nous"]

/-- The optional quantifier [rz]? under flag i. -/
def rRZopt : Regex := ropt (ralts [rcharCI 'r', rcharCI 'z'])

/-- Wrap a boundary-free pattern for substring search. -/
def searchPat (core : Regex) : Regex := Regex.seq ctxAny (Regex.seq core ctxAnyEnd)

/-- Wrap a pattern carrying the given explicit contexts. -/
def searchPatCtx (left core right : Regex) : Regex := Regex.seq left (Regex.seq core right)

/-!
## The multi-step-reasoning patterns (detectMultiStepReasoning, src/classifier.ts)

One list entry per source pattern, in source order; each entry is the full
search regex (pattern plus contexts).  The source patterns, in order:
 1. first[\s,]+.*then          (i)
 2. step\s*\d                  (i)
 3. \d+\.\s+\w+.*\n.*\d+\.\s+\w+
 4. compare\s+\w+\s+(and|vs|versus|with)\s+\w+   (i)
 5. what\s+are\s+the\s+(differences?|similarities?)  (i)
 6. how\s+(would|should|can|do)\s+(you|i|we)\s+\w+.*\?  (i)
 7. d\x27abord[\s,]+.*ensuite  (i)
 8. premi[èe]rement[\s,]+.*puis  (i)
 9. étape\s*\d                 (i)
10. compare[rz]?\s+\w+\s+(et|avec|à|vs)\s+\w+  (i)
11. quelles?\s+(sont|est)\s+(les?\s+)?(différences?|similitudes?)  (i)
12. comment\s+(puis-je|peut-on|faire|est-ce)  (i)
13. explique[\s-]*(moi|nous)?  (i)
14. pourquoi\s+(est-ce|faut-il|ne\s+pas)  (i)
15. r[ée]sume[\s-]*(moi|nous)?  (i)
16. analyse[\s-]*(moi|nous)?\s+(ce|le|la|les|cet)  (i)
17. d[ée]cris[\s-]*(moi|nous)?  (i)
18. aide[\s-]*(moi|nous)?\s+[àa]\s+(comprendre|d[ée]bugger|analyser|r[ée]soudre|trouver)  (i)
19. help\s+me\s+(understand|debug|analyze|fix|find|solve)  (i)
-/
def MULTI_STEP_PATTERNS : List Regex := [
  searchPat (rseqs [rstrCI "first", rplus rwsComma, rdotStar, rstrCI "then"]),
  searchPat (rseqs [rstrCI "step", rwsStar, rdigit]),
  searchPat (rseqs [rplus rdigit, rchar '.', rwsPlus, rplus rword, rdotStar,
    rchar '\n', rdotStar, rplus rdigit, rchar '.', rwsPlus, rplus rword]),
  searchPat (rseqs [rstrCI "compare", rwsPlus, rplus rword, rwsPlus,
    ralts [rstrCI "and", rstrCI "vs", rstrCI "versus", rstrCI "with"], rwsPlus, rplus rword]),
  searchPat (rseqs [rstrCI "what", rwsPlus, rstrCI "are", rwsPlus, rstrCI "the", rwsPlus,
    ralts [Regex.seq (rstrCI "difference") (ropt (rcharCI 's')),
           Regex.seq (rstrCI "similaritie") (ropt (rcharCI 's'))]]),
  searchPat (rseqs [rstrCI "how", rwsPlus,
    ralts [rstrCI "would", rstrCI "should", rstrCI "can", rstrCI "do"], rwsPlus,
    ralts [rstrCI "you", rstrCI "i", rstrCI "we"], rwsPlus, rplus rword, rdotStar, rchar '?']),
  searchPat (rseqs [rcharCI 'd', rchar apos, rstrCI "abord", rplus rwsComma, rdotStar,
    rstrCI "ensuite"]),
  searchPat (rseqs [rstrCI "premi", rgEorE, rstrCI "rement", rplus rwsComma, rdotStar,
    rstrCI "puis"]),
  searchPat (rseqs [reA, rstrCI "tape", rwsStar, rdigit]),
  searchPat (rseqs [rstrCI "compare", rRZopt, rwsPlus, rplus rword, rwsPlus,
    ralts [rstrCI "et", rstrCI "avec", raGrave, rstrCI "vs"], rwsPlus, rplus rword]),
  searchPat (rseqs [rstrCI "quelle", ropt (rcharCI 's'), rwsPlus,
    ralts [rstrCI "sont", rstrCI "est"], rwsPlus,
    ropt (rseqs [rstrCI "le", ropt (rcharCI 's'), rwsPlus]),
    ralts [rseqs [rstrCI "diff", reA, rstrCI "rence", ropt (rcharCI 's')],
           Regex.seq (rstrCI "similitude") (ropt (rcharCI 's'))]]),
  searchPat (rseqs [rstrCI "comment", rwsPlus,
    ralts [rstrCI "puis-je", rstrCI "peut-on", rstrCI "faire", rstrCI "est-ce"]]),
  searchPat (rseqs [rstrCI "explique", Regex.star rwsDash, ropt rMoiNous]),
  searchPat (rseqs [rstrCI "pourquoi", rwsPlus,
    ralts [rstrCI "est-ce", rstrCI "faut-il", rseqs [rstrCI "ne", rwsPlus, rstrCI "pas"]]]),
  searchPat (rseqs [rcharCI 'r', reAorE, rstrCI "sume", Regex.star rwsDash, ropt rMoiNous]),
  searchPat (rseqs [rstrCI "analyse", Regex.star rwsDash, ropt rMoiNous, rwsPlus,
    ralts [rstrCI "ce", rstrCI "le", rstrCI "la", rstrCI "les", rstrCI "cet"]]),
  searchPat (rseqs [rcharCI 'd', reAorE, rstrCI "cris", Regex.star rwsDash, ropt rMoiNous]),
  searchPat (rseqs [rstrCI "aide", Regex.star rwsDash, ropt rMoiNous, rwsPlus, raGraveOrA,
    rwsPlus,
    ralts [rstrCI "comprendre", rseqs [rcharCI 'd', reAorE, rstrCI "bugger"],
           rstrCI "analyser", rseqs [rcharCI 'r', reAorE, rstrCI "soudre"], rstrCI "trouver"]]),
  searchPat (rseqs [rstrCI "help", rwsPlus, rstrCI "me", rwsPlus,
    ralts [rstrCI "understand", rstrCI "debug", rstrCI "analyze", rstrCI "fix",
           rstrCI "find", rstrCI "solve"]])]

/-- Embedding of detectMultiStepReasoning (src/classifier.ts). -/
def detectMultiStepReasoning (text : String) : Bool :=
  MULTI_STEP_PATTERNS.any (fun r => Regex.rmatch r text.data)

/-!
## The debugging patterns (detectDebugging, src/classifier.ts)

Source patterns in order:
 1. error:       (i)
 2. exception:   (i)
 3. traceback    (i)
 4. stack\s*trace  (i)
 5. failed\s+to  (i)
 6. doesn\x27t\s+work  (i)
 7. not\s+working  (i)
 8. bug\b        (i)
 9. fix\s+(this|the|my)  (i)
10. erreur\s*:   (i)
11. ne\s+(fonctionne|marche)\s+(pas|plus)  (i)
12. ça\s+(ne\s+)?(fonctionne|marche)\s+(pas|plus)  (i)
13. corrige[rz]?\s+(ce|le|mon|cette|la|ma)  (i)
14. répare[rz]?\s+(ce|le|mon|cette|la|ma)  (i)
15. problème\s+(avec|de|dans)  (i)
16. échoue\s+à   (i)
17. a\s+échoué   (i)
-/
def DEBUGGING_PATTERNS : List Regex := [
  searchPat (rstrCI "error:"),
  searchPat (rstrCI "exception:"),
  searchPat (rstrCI "traceback"),
  searchPat (rseqs [rstrCI "stack", rwsStar, rstrCI "trace"]),
  searchPat (rseqs [rstrCI "failed", rwsPlus, rstrCI "to"]),
  searchPat (rseqs [rstrCI "doesn", rchar apos, rcharCI 't', rwsPlus, rstrCI "work"]),
  searchPat (rseqs [rstrCI "not", rwsPlus, rstrCI "working"]),
  searchPatCtx ctxAny (rstrCI "bug") ctxBoundaryWEnd,
  searchPat (rseqs [rstrCI "fix", rwsPlus, ralts [rstrCI "this", rstrCI "the", rstrCI "my"]]),
  searchPat (rseqs [rstrCI "erreur", rwsStar, rchar ':']),
  searchPat (rseqs [rstrCI "ne", rwsPlus, ralts [rstrCI "fonctionne", rstrCI "marche"],
    rwsPlus, ralts [rstrCI "pas", rstrCI "plus"]]),
  searchPat (rseqs [rcCedilla, rcharCI 'a', rwsPlus, ropt (rseqs [rstrCI "ne", rwsPlus]),
    ralts [rstrCI "fonctionne", rstrCI "marche"], rwsPlus, ralts [rstrCI "pas", rstrCI "plus"]]),
  searchPat (rseqs [rstrCI "corrige", rRZopt, rwsPlus,
    ralts [rstrCI "ce", rstrCI "le", rstrCI "mon", rstrCI "cette", rstrCI "la", rstrCI "ma"]]),
  searchPat (rseqs [rcharCI 'r', reAorE, rstrCI "pare", rRZopt, rwsPlus,
    ralts [rstrCI "ce", rstrCI "le", rstrCI "mon", rstrCI "cette", rstrCI "la", rstrCI "ma"]]),
  searchPat (rseqs [rstrCI "probl", rgE, rstrCI "me", rwsPlus,
    ralts [rstrCI "avec", rstrCI "de", rstrCI "dans"]]),
  searchPat (rseqs [reA, rstrCI "choue", rwsPlus, raGrave]),
  searchPat (rseqs [rcharCI 'a', rwsPlus, reA, rstrCI "chou", reA])]

/-- Embedding of detectDebugging (src/classifier.ts). -/
def detectDebugging (text : String) : Bool :=
  DEBUGGING_PATTERNS.any (fun r => Regex.rmatch r text.data)

/-!
## The deep-question patterns (calculateComplexityScore, src/classifier.ts)

Source patterns in order:
 1. \b(why|pourquoi)\b.*\?   (i)
 2. \bhow\s+(does|do|can|could|would|is|are)\b.*\?   (i)
 3. \bwhat\s+(is|are)\s+the\s+(difference|reason|cause|mechanism)   (i)
 4. \bqu\x27?est[- ]ce\s+que?\b   (i)
 5. \bcomment\s+(ça|cela)?\s*(fonctionne|marche)   (i)

A mid-pattern \b followed by .*\? is realized as: either the question mark
follows at once (a non-word character, so the boundary holds), or the first
character consumed by .* is a non-word dot character.
-/

/-- The continuation \b.*\? after a group ending in a word character. -/
def rBoundThenDotStarQm : Regex :=
  Regex.alt (rchar '?')
    (rseqs [Regex.pred (fun c => isDotChar c && !isWordChar c), rdotStar, rchar '?'])

def DEEP_QUESTION_PATTERNS : List Regex := [
  searchPatCtx ctxBoundaryW
    (Regex.seq (ralts [rstrCI "why", rstrCI "pourquoi"]) rBoundThenDotStarQm) ctxAnyEnd,
  searchPatCtx ctxBoundaryW
    (Regex.seq
      (rseqs [rstrCI "how", rwsPlus,
        ralts [rstrCI "does", rstrCI "do", rstrCI "can", rstrCI "could",
               rstrCI "would", rstrCI "is", rstrCI "are"]])
      rBoundThenDotStarQm) ctxAnyEnd,
  searchPatCtx ctxBoundaryW
    (rseqs [rstrCI "what", rwsPlus, ralts [rstrCI "is", rstrCI "are"], rwsPlus,
      rstrCI "the", rwsPlus,
      ralts [rstrCI "difference", rstrCI "reason", rstrCI "cause", rstrCI "mechanism"]])
    ctxAnyEnd,
  searchPatCtx ctxBoundaryW
    (rseqs [rstrCI "qu", ropt (rchar apos), rstrCI "est",
      Regex.pred (fun c => c = '-' || c = ' '), rstrCI "ce", rwsPlus,
      rstrCI "qu", ropt (rcharCI 'e')])
    ctxBoundaryWEnd,
  searchPatCtx ctxBoundaryW
    (rseqs [rstrCI "comment", rwsPlus,
      ropt (ralts [Regex.seq rcCedilla (rcharCI 'a'), rstrCI "cela"]), rwsStar,
      ralts [rstrCI "fonctionne", rstrCI "marche"]])
    ctxAnyEnd]

/-- Deep-question detector of the scorer (the length gate stays in the scorer). -/
def detectDeepQuestion (text : String) : Bool :=
  DEEP_QUESTION_PATTERNS.any (fun r => Regex.rmatch r text.data)

/-!
## The academic-topic patterns (calculateComplexityScore, src/classifier.ts)

Source patterns in order:
 1. \b(theory|theorem|principle|concept|hypothesis)\b   (i)
 2. \b(théorie|théorème|principe|concept|hypothèse)\b   (i)
 3. \b(quantum|relativity|physics|mathematics|philosophy)\b   (i)
 4. \b(quantique|relativité|physique|mathématiques?|philosophie)\b   (i)
 5. \b(mécanique|thermodynamique|électromagnétisme)\b   (i)

Under JavaScript semantics \w is ASCII, so é is a non-word character: a
trailing \b after relativité requires a word character to FOLLOW, and a
leading \b before électromagnétisme requires a word character to PRECEDE.
Those alternatives carry their own contexts below.
-/

/-- Wrap an alternative whose first and last characters are word characters. -/
def bWrapWW (core : Regex) : Regex := searchPatCtx ctxBoundaryW core ctxBoundaryWEnd

def ACADEMIC_PATTERNS : List Regex := [
  bWrapWW (ralts [rstrCI "theory", rstrCI "theorem", rstrCI "principle",
                  rstrCI "concept", rstrCI "hypothesis"]),
  bWrapWW (ralts [rseqs [rstrCI "th", reA, rstrCI "orie"],
                  rseqs [rstrCI "th", reA, rstrCI "or", rgE, rstrCI "me"],
                  rstrCI "principe", rstrCI "concept",
                  rseqs [rstrCI "hypoth", rgE, rstrCI "se"]]),
  bWrapWW (ralts [rstrCI "quantum", rstrCI "relativity", rstrCI "physics",
                  rstrCI "mathematics", rstrCI "philosophy"]),
  ralts [bWrapWW (rstrCI "quantique"),
         searchPatCtx ctxBoundaryW (rseqs [rstrCI "relativit", reA]) ctxBoundaryNWEnd,
         bWrapWW (rstrCI "physique"),
         bWrapWW (rseqs [rstrCI "math", reA, rstrCI "matique", ropt (rcharCI 's')]),
         bWrapWW (rstrCI "philosophie")],
  ralts [bWrapWW (rseqs [rcharCI 'm', reA, rstrCI "canique"]),
         bWrapWW (rstrCI "thermodynamique"),
         searchPatCtx ctxBoundaryNW
           (rseqs [reA, rstrCI "lectromagn", reA, rstrCI "tisme"]) ctxBoundaryWEnd]]

/-- Academic-topic detector of the scorer. -/
def detectAcademicTopic (text : String) : Bool :=
  ACADEMIC_PATTERNS.any (fun r => Regex.rmatch r text.data)

/-! ## Keyword vocabularies (src/classifier.ts, English + French variant) -/

/-- POWER_KEYWORDS, transcribed verbatim in source order. -/
def POWER_KEYWORDS : List String := [
  -- Architecture & Design
  "architect", "architecture", "design pattern", "refactor", "restructure",
  "scalab", "microservice", "distributed", "system design",
  "restructurer", "conception",
  -- Deep Analysis (EN)
  "analyze", "analyse", "debug", "diagnose", "investigate", "root cause",
  "performance", "optimize", "bottleneck", "memory leak",
  -- Deep Analysis (FR)
  "analyser", "débugger", "diagnostiquer", "enquêter", "cause racine",
  "optimiser", "goulot", "fuite mémoire",
  -- Complex Coding
  "implement", "algorithm", "data structure", "recursive", "dynamic programming",
  "concurrency", "async", "thread", "race condition", "deadlock",
  "security", "vulnerability", "exploit", "injection", "authentication",
  "implémenter", "algorithme", "structure de données", "récursif",
  "programmation dynamique",
  "concurrence", "authentification", "vulnérabilité",
  -- Multi-step Reasoning (EN)
  "step by step", "walk me through", "explain how", "compare and contrast",
  "pros and cons", "trade-off", "tradeoff", "best approach",
  -- Multi-step Reasoning (FR)
  "étape par étape", "explique-moi", "explique moi", "comment fonctionne",
  "compare", "avantages et inconvénients", "pour et contre", "meilleure approche",
  -- Explanation requests (EN)
  "explain", "describe", "elaborate", "summarize", "summary",
  -- Explanation requests (FR)
  "explique", "expliquer", "décris", "décrire", "résume", "résumer", "résumé",
  -- Why/How questions (EN)
  "why does", "why is", "how does", "how do", "how can",
  -- Why/How questions (FR)
  "pourquoi", "comment faire", "comment est-ce",
  -- Research & Synthesis
  "research", "synthesize", "comprehensive", "in-depth", "thorough",
  "literature review", "state of the art",
  "recherche", "synthétiser", "approfondi", "complet"]

/-- SIMPLE_KEYWORDS, transcribed verbatim in source order
(the entry "message" occurs twice in the source, once in the English and
once in the French block; the duplicate is kept). -/
def SIMPLE_KEYWORDS : List String := [
  -- Greetings (EN)
  "hello", "hi", "thanks", "thank you", "ok", "yes", "no",
  -- Greetings (FR)
  "salut", "bonjour", "coucou", "merci", "oui", "non", "ça va", "ca va",
  -- Simple tasks (EN)
  "what time", "weather", "reminder", "status", "list",
  "send", "message", "email", "check",
  -- Simple tasks (FR)
  "quelle heure", "météo", "meteo", "rappel", "statut", "liste",
  "envoie", "envoyer", "message", "mail", "vérifie", "vérifier"]

/-- PROGRAMMING_LANGUAGES, transcribed verbatim in source order. -/
def PROGRAMMING_LANGUAGES : List String := [
  "typescript", "javascript", "python", "rust", "go", "java",
  "c++", "cpp", "solidity", "sql", "graphql"]

/-! ## Keyword counting (countKeywordMatches, src/classifier.ts) -/

/-- Embedding of String.prototype.includes: substring containment. -/
def strIncludes : List Char → List Char → Bool
  | [], sub => sub.isEmpty
  | c :: rest, sub => charPrefix sub (c :: rest) || strIncludes rest sub

/-- ASCII lowercasing of a string as a character list (String.prototype.toLowerCase
on the character ranges the repository exercises). -/
def lowerData (s : String) : List Char := s.data.map Char.toLower

/-- Embedding of countKeywordMatches: the number of vocabulary entries that
occur (case-insensitively) as substrings of the text. -/
def countKeywordMatches (text : String) (keywords : List String) : Nat :=
  let lowerText := lowerData text
  (keywords.filter (fun kw => strIncludes lowerText (lowerData kw))).length

/-! ## Code-line counting (countCodeLines, src/classifier.ts) -/

/-- Split a character list at every occurrence of the given separator test
(used for the line splits; each terminator character separates). -/
def splitByAux (p : Char → Bool) : List Char → List Char → List (List Char)
  | [], acc => [acc.reverse]
  | c :: rest, acc =>
      if p c then acc.reverse :: splitByAux p rest []
      else splitByAux p rest (c :: acc)

/-- Split at every character satisfying p. -/
def splitBy (p : Char → Bool) (l : List Char) : List (List Char) :=
  splitByAux p l []

/-- Scan for fenced code blocks: the contents between consecutive pairs of
triple-backtick fences, in order.  This realizes the global non-greedy
match of the block regex (three backticks, shortest body, three backticks):
the scanner opens at each triple backtick and closes at the next one. -/
def fenceScan : List Char → Bool → List Char → List (List Char)
  | c1 :: c2 :: c3 :: rest, inside, acc =>
      if c1 = btick && c2 = btick && c3 = btick then
        if inside then acc.reverse :: fenceScan rest false []
        else fenceScan rest true []
      else
        fenceScan (c2 :: c3 :: rest) inside (if inside then c1 :: acc else acc)
  | _ :: _, _, _ => []
  | [], _, _ => []

/-- The fenced block bodies of a text. -/
def fenceBlocks (text : List Char) : List (List Char) := fenceScan text false []

/-- Strip the fence decorations from a block body: the replace of the source
removes the opening fence together with an optional language tag (a run of
word characters) and one following newline; the closing fence is likewise
removed (it is the fence scan that already drops both fences here, so only
the language tag and its newline remain to strip). -/
def stripTag (block : List Char) : List Char :=
  match block.dropWhile isWordChar with
  | '\n' :: rest => rest
  | rest => rest

/-- Non-blank lines of a block body: split on the newline character and keep
the lines containing a non-whitespace character (the trim of the source). -/
def countBlockLines (code : List Char) : Nat :=
  (splitBy (fun c => c = '\n') code).countP (fun line => line.any (fun c => !isJsSpace c))

/-- The code-statement keywords of the inline-code regex, in source order. -/
def CODE_LINE_KEYWORDS : List String := [
  "const", "let", "var", "function", "class", "import", "export",
  "if", "for", "while", "return", "async", "await"]

/-- Does a line match ^[\t ]*(?:const|let|...|await)\b ?  Leading tabs and
spaces are skipped, then one of the keywords must follow, ending at a word
boundary. -/
def lineIsCode (line : List Char) : Bool :=
  let rest := line.dropWhile (fun c => c = '\t' || c = ' ')
  CODE_LINE_KEYWORDS.any (fun kw =>
    charPrefix kw.data rest &&
    (match rest.drop kw.data.length with
     | [] => true
     | c :: _ => !isWordChar c))

/-- Sum of a list of naturals. -/
def sumNats : List Nat → Nat
  | [] => 0
  | x :: xs => x + sumNats xs

/-- Embedding of countCodeLines (src/classifier.ts): non-blank lines inside
fenced blocks, plus the lines of the whole text that open with a
code-statement keyword (the multiline inline-code regex). -/
def countCodeLines (text : String) : Nat :=
  let totalLines := sumNats ((fenceBlocks text.data).map (fun b => countBlockLines (stripTag b)))
  let inlineCodeLines := (splitBy isLineTerm text.data).countP lineIsCode
  totalLines + inlineCodeLines

/-! ## The classifier data model (src/types.ts) -/

/-- ClassificationThresholds: three non-negative integer gates. -/
structure ClassificationThresholds where
  minLengthForPower : Nat
  minCodeLinesForPower : Nat
  minScoreForPower : Nat
deriving DecidableEq

/-- Message roles. -/
inductive Role where
  | system
  | user
  | assistant
  | tool
deriving DecidableEq

/-- Structured content parts: text, or an image reference. -/
inductive ContentPart where
  | text (text : String)
  | image_url (url : String)
deriving DecidableEq

/-- Message content: a plain string or a sequence of typed parts. -/
inductive MessageContent where
  | str (s : String)
  | parts (parts : List ContentPart)
deriving DecidableEq

/-- ChatMessage.  The optional tool-call payload of the source is an opaque
value that no embedded function reads; it is carried here as the opaque
optional name and tool_call_id fields, passed through unmodified. -/
structure ChatMessage where
  role : Role
  content : MessageContent
  name : Option String := none
  tool_call_id : Option String := none
deriving DecidableEq

/-! ## Signal labels (the template strings of calculateComplexityScore) -/

def longMessageSignal (length : Nat) : String :=
  "long_message:" ++ (toString length ++ "chars")

def codeSignal (codeLines : Nat) : String :=
  "code:" ++ (toString codeLines ++ "lines")

def powerKeywordsSignal (powerMatches : Nat) : String :=
  "power_keywords:" ++ toString powerMatches

def simpleKeywordsSignal (simpleMatches : Nat) : String :=
  "simple_keywords:" ++ toString simpleMatches

def programmingSignal (langMatches : Nat) : String :=
  "programming:" ++ (toString langMatches ++ "langs")

def questionsSignal (questionCount : Nat) : String :=
  "questions:" ++ toString questionCount

/-! ## The ten scoring blocks of calculateComplexityScore, in source order.
Each block yields its additive score contribution and its emitted labels. -/

/-- Length factor (0-20 points). -/
def lengthFactor (length : Nat) (t : ClassificationThresholds) : Int × List String :=
  if t.minLengthForPower < length then
    let lengthScore := min 20 ((length - t.minLengthForPower) / 100)
    ((lengthScore : Int), if 5 < lengthScore then [longMessageSignal length] else [])
  else (0, [])

/-- Code lines factor (0-25 points). -/
def codeFactor (codeLines : Nat) (t : ClassificationThresholds) : Int × List String :=
  if t.minCodeLinesForPower < codeLines then
    (((min 25 ((codeLines - t.minCodeLinesForPower) / 2) : Nat) : Int), [codeSignal codeLines])
  else if 10 < codeLines then (5, [codeSignal codeLines])
  else (0, [])

/-- Power keywords (0-40 points, weighted higher for complex reasoning signals). -/
def powerKeywordFactor (powerMatches : Nat) : Int × List String :=
  if 0 < powerMatches then
    (((min 40 (powerMatches * 10) : Nat) : Int), [powerKeywordsSignal powerMatches])
  else (0, [])

/-- Simple keywords (negative, -10 to 0); applied only when no power keyword matched. -/
def simpleKeywordFactor (simpleMatches powerMatches : Nat) : Int × List String :=
  if 0 < simpleMatches ∧ powerMatches = 0 then
    let d : Nat := min 10 (simpleMatches * 3)
    (-(d : Int), [simpleKeywordsSignal simpleMatches])
  else (0, [])

/-- Multi-step reasoning (0-30 points). -/
def multiStepFactor (detected : Bool) : Int × List String :=
  if detected then (30, ["multi_step_reasoning"]) else (0, [])

/-- Debugging context (0-25 points). -/
def debuggingFactor (detected : Bool) : Int × List String :=
  if detected then (25, ["debugging"]) else (0, [])

/-- Deep reasoning questions (0-15 points); the detector is gated on length. -/
def deepQuestionFactor (detected : Bool) : Int × List String :=
  if detected then (15, ["deep_question"]) else (0, [])

/-- Academic or theoretical topics (0-15 points). -/
def academicFactor (detected : Bool) : Int × List String :=
  if detected then (15, ["academic_topic"]) else (0, [])

/-- Programming language mentions (0-5 points). -/
def programmingFactor (langMatches : Nat) : Int × List String :=
  if 0 < langMatches then
    (((min 5 (langMatches * 2) : Nat) : Int), [programmingSignal langMatches])
  else (0, [])

/-- Question complexity (multiple questions, 0-10 points). -/
def questionFactor (questionCount : Nat) : Int × List String :=
  if 2 < questionCount then
    (((min 10 (questionCount * 2) : Nat) : Int), [questionsSignal questionCount])
  else (0, [])

/-- The question-mark count of the text. -/
def countQuestionMarks (text : String) : Nat := text.data.countP (fun c => c = '?')

/-- Result of one scoring pass. -/
structure ScoreResult where
  score : Int
  signals : List String
deriving DecidableEq

/-- The blocks of calculateComplexityScore in execution order.  powerMatches
is computed once and shared by the power-keyword and simple-keyword blocks,
as in the source. -/
def scoreParts (text : String) (t : ClassificationThresholds) : List (Int × List String) :=
  let powerMatches := countKeywordMatches text POWER_KEYWORDS
  [lengthFactor text.length t,
   codeFactor (countCodeLines text) t,
   powerKeywordFactor powerMatches,
   simpleKeywordFactor (countKeywordMatches text SIMPLE_KEYWORDS) powerMatches,
   multiStepFactor (detectMultiStepReasoning text),
   debuggingFactor (detectDebugging text),
   deepQuestionFactor (detectDeepQuestion text && decide (30 < text.length)),
   academicFactor (detectAcademicTopic text),
   programmingFactor (countKeywordMatches text PROGRAMMING_LANGUAGES),
   questionFactor (countQuestionMarks text)]

/-- The accumulated score before the final clamp. -/
def rawScore (text : String) (t : ClassificationThresholds) : Int :=
  sumInts ((scoreParts text t).map Prod.fst)

/-- The emitted labels, in detection order. -/
def rawSignals (text : String) (t : ClassificationThresholds) : List String :=
  concatAll ((scoreParts text t).map Prod.snd)

/-- Embedding of calculateComplexityScore: the block contributions summed,
then clamped into [0,100]; the labels in block order. -/
def calculateComplexityScore (text : String) (thresholds : ClassificationThresholds) :
    ScoreResult :=
  ⟨max 0 (min 100 (rawScore text thresholds)), rawSignals text thresholds⟩

/-! ## Text extraction and classification (src/classifier.ts) -/

/-- The text of one structured part: text parts carry their text, image
references contribute nothing. -/
def partText : ContentPart → Option String
  | .text t => some t
  | .image_url _ => none

/-- The per-message extraction of extractTextContent: string content is used
verbatim; array content keeps only the text parts, joined by a newline.
(The final fallback branch of the source is unreachable under the content
union type.) -/
def messageText (msg : ChatMessage) : String :=
  match msg.content with
  | .str s => s
  | .parts ps => joinSep "\n" (ps.filterMap partText)

/-- Embedding of extractTextContent: per-message texts joined by a newline. -/
def extractTextContent (messages : List ChatMessage) : String :=
  joinSep "\n" (messages.map messageText)

/-- The text of the last user message: scan from the end for role user and
extract; empty when no user message exists. -/
def lastUserText (messages : List ChatMessage) : String :=
  match messages.reverse.find? (fun m => decide (m.role = Role.user)) with
  | some m => extractTextContent [m]
  | none => ""

/-- Output of classification. -/
structure ClassificationResult where
  usePowerModel : Bool
  score : Int
  signals : List String
  reason : String
deriving DecidableEq

/-- Embedding of classifyRequest: score the full conversation and the last
user turn, keep the larger score (ties keep the full-conversation signals),
and compare against the score threshold. -/
def classifyRequest (messages : List ChatMessage) (thresholds : ClassificationThresholds) :
    ClassificationResult :=
  let text := extractTextContent messages
  let full := calculateComplexityScore text thresholds
  let last := calculateComplexityScore (lastUserText messages) thresholds
  let score := max full.score last.score
  let signals := if score = full.score then full.signals else last.signals
  let usePowerModel := decide ((thresholds.minScoreForPower : Int) ≤ score)
  let joined := joinSep ", " signals
  let reason :=
    if usePowerModel then
      "Complexity score " ++ toString score ++ " >= " ++
        toString thresholds.minScoreForPower ++ " (signals: " ++ joined ++ ")"
    else
      "Complexity score " ++ toString score ++ " < " ++
        toString thresholds.minScoreForPower ++ " - using default model"
  ⟨usePowerModel, score, signals, reason⟩

/-! ## The router data model (src/types.ts, src/router.ts) -/

/-- Backend providers. -/
inductive Provider where
  | ollama
  | anthropic
  | openai
deriving DecidableEq

/-- ModelConfig: one tier completion endpoint. -/
structure ModelConfig where
  provider : Provider
  model : String
  baseUrl : String
  apiKey : Option String := none
deriving DecidableEq

/-- RouterConfig (the HTTP fields are carried but unread by the dispatcher). -/
structure RouterConfig where
  port : Nat
  host : String
  defaultModel : ModelConfig
  powerModel : ModelConfig
  thresholds : ClassificationThresholds
  debug : Bool
deriving DecidableEq

/-- The two tiers. -/
inductive Tier where
  | default
  | power
deriving DecidableEq

/-- A value thrown by a backend call: an Error instance carrying a message,
or any other thrown value (the instanceof Error test distinguishes them). -/
inductive Thrown where
  | error (message : String)
  | other
deriving DecidableEq

/-- Does the thrown value satisfy instanceof Error? -/
def Thrown.isError : Thrown → Bool
  | .error _ => true
  | .other => false

deriving instance DecidableEq for Except

/-- Finish reasons of a completion choice (null is the none case). -/
inductive FinishReason where
  | stop
  | length
  | tool_calls
deriving DecidableEq

/-- A chat completion request (extra unknown fields of the source interface
are opaque and unread by the dispatcher). -/
structure ChatCompletionRequest where
  model : Option String := none
  messages : List ChatMessage
  stream : Option Bool := none
  temperature : Option Rat := none
  max_tokens : Option Nat := none
deriving DecidableEq

/-- The parameters of one outbound completion call: the selected model, and
the request messages, temperature and max-token constraint passed through. -/
structure CallParams where
  model : String
  messages : List ChatMessage
  temperature : Option Rat
  max_tokens : Option Nat
deriving DecidableEq

/-- One choice of an upstream (backend) completion reply; content may be null. -/
structure CompletionChoice where
  index : Nat
  role : Role
  content : Option String
  finish_reason : Option FinishReason
deriving DecidableEq

/-- Usage counters. -/
structure Usage where
  prompt_tokens : Nat
  completion_tokens : Nat
  total_tokens : Nat
deriving DecidableEq

/-- An upstream completion reply. -/
structure Completion where
  id : String
  created : Nat
  model : String
  choices : List CompletionChoice
  usage : Option Usage := none
deriving DecidableEq

/-- A normalized choice of the canonical response shape. -/
structure ChatChoice where
  index : Nat
  message : ChatMessage
  finish_reason : Option FinishReason
deriving DecidableEq

/-- The routing metadata block attached under the custom field of the
response (the field spelled with a leading underscore in the source). -/
structure RouterMeta where
  tier : Tier
  model : String
  score : Int
  signals : List String
deriving DecidableEq

/-- The canonical (normalized) completion response. -/
structure ChatCompletionResponse where
  id : String
  created : Nat
  model : String
  choices : List ChatChoice
  usage : Option Usage
  routerMeta : RouterMeta
deriving DecidableEq

/-- Normalization of one upstream choice (null content becomes the empty
string; the role is kept). -/
def normalizeChoice (ch : CompletionChoice) : ChatChoice :=
  ⟨ch.index, { role := ch.role, content := MessageContent.str (ch.content.getD "") },
   ch.finish_reason⟩

/-- Build the canonical response from an upstream completion, attaching the
given routing metadata (this is the response construction that the source
spells twice, once per dispatch path). -/
def mkResponse (completion : Completion) (meta : RouterMeta) : ChatCompletionResponse :=
  ⟨completion.id, completion.created, completion.model,
   completion.choices.map normalizeChoice, completion.usage, meta⟩

/-- The two blocking backend handles of the dispatcher, as call functions;
a call either returns a completion or throws. -/
structure Backends where
  defaultCall : CallParams → Except Thrown Completion
  powerCall : CallParams → Except Thrown Completion

/-- Result triple of routeRequest. -/
structure RouteOutcome where
  response : ChatCompletionResponse
  tier : Tier
  classification : ClassificationResult
deriving DecidableEq

/-- The call parameters routeRequest builds for a model config and request. -/
def mkParams (mc : ModelConfig) (request : ChatCompletionRequest) : CallParams :=
  ⟨mc.model, request.messages, request.temperature, request.max_tokens⟩

/-- Embedding of LLMRouter.routeRequest.  The effect of each outbound
completion call is made explicit: the second component records every
backend invocation, in order, as a tier paired with its call parameters.
The fallback runs exactly when the first call failed, the selected tier was
the default one, and the thrown value is an Error instance. -/
def routeRequest (config : RouterConfig) (be : Backends)
    (request : ChatCompletionRequest) :
    Except Thrown RouteOutcome × List (Tier × CallParams) :=
  let classification := classifyRequest request.messages config.thresholds
  let tier := if classification.usePowerModel then Tier.power else Tier.default
  let modelConfig := if classification.usePowerModel then config.powerModel
    else config.defaultModel
  let call := if classification.usePowerModel then be.powerCall else be.defaultCall
  let params := mkParams modelConfig request
  match call params with
  | .ok completion =>
      (.ok ⟨mkResponse completion
          ⟨tier, modelConfig.model, classification.score, classification.signals⟩,
        tier, classification⟩,
       [(tier, params)])
  | .error err =>
      if tier = Tier.default ∧ err.isError then
        let fallbackParams := mkParams config.powerModel request
        match be.powerCall fallbackParams with
        | .ok completion =>
            (.ok ⟨mkResponse completion
                ⟨Tier.power, config.powerModel.model, classification.score,
                 classification.signals ++ ["fallback_after_error"]⟩,
              Tier.power, classification⟩,
             [(tier, params), (Tier.power, fallbackParams)])
        | .error err2 =>
            (.error err2, [(tier, params), (Tier.power, fallbackParams)])
      else
        (.error err, [(tier, params)])

/-! ## Streaming dispatch (LLMRouter.routeStreamingRequest) -/

/-- One choice of an upstream stream chunk (the delta fields may be absent). -/
structure UpstreamStreamChoice where
  index : Nat
  deltaRole : Option Role
  deltaContent : Option String
  finish_reason : Option FinishReason
deriving DecidableEq

/-- One upstream stream chunk. -/
structure UpstreamChunk where
  id : String
  created : Nat
  model : String
  choices : List UpstreamStreamChoice
deriving DecidableEq

/-- A normalized stream choice. -/
structure StreamChoice where
  index : Nat
  deltaRole : Option Role
  deltaContent : Option String
  finish_reason : Option FinishReason
deriving DecidableEq

/-- A normalized stream chunk as yielded to the caller. -/
structure StreamChunk where
  id : String
  created : Nat
  model : String
  choices : List StreamChoice
deriving DecidableEq

/-- An upstream stream: the chunks received in order, then either normal
termination or an error raised after the listed chunks. -/
structure UpstreamStream where
  chunks : List UpstreamChunk
  terminal : Option Thrown := none
deriving DecidableEq

/-- The two streaming backend handles: opening the stream either yields the
upstream sequence or throws. -/
structure StreamBackends where
  defaultStream : CallParams → Except Thrown UpstreamStream
  powerStream : CallParams → Except Thrown UpstreamStream

/-- Per-chunk normalization of the streaming loop (ids, timestamp, model,
per-choice index, delta role and content, finish reason). -/
def normalizeChunk (c : UpstreamChunk) : StreamChunk :=
  ⟨c.id, c.created, c.model,
   c.choices.map (fun ch => ⟨ch.index, ch.deltaRole, ch.deltaContent, ch.finish_reason⟩)⟩

/-- The yield loop: one normalized chunk per upstream chunk, in order. -/
def emitChunks : List UpstreamChunk → List StreamChunk
  | [] => []
  | c :: cs => normalizeChunk c :: emitChunks cs

/-- Embedding of LLMRouter.routeStreamingRequest.  The produced value is the
sequence of chunks the generator yields together with the terminal event
(none for normal completion, an error otherwise); the trace component
records every backend invocation.  There is no try/catch in the source
generator: an opening failure or mid-stream error propagates, and no
fallback call exists on this path. -/
def routeStreamingRequest (config : RouterConfig) (sbe : StreamBackends)
    (request : ChatCompletionRequest) :
    Except Thrown (List StreamChunk × Option Thrown) × List (Tier × CallParams) :=
  let classification := classifyRequest request.messages config.thresholds
  let tier := if classification.usePowerModel then Tier.power else Tier.default
  let modelConfig := if classification.usePowerModel then config.powerModel
    else config.defaultModel
  let call := if classification.usePowerModel then sbe.powerStream else sbe.defaultStream
  let params := mkParams modelConfig request
  match call params with
  | .error err => (.error err, [(tier, params)])
  | .ok up => (.ok (emitChunks up.chunks, up.terminal), [(tier, params)])

/-! ## Statement-level definitions -/

/-- The label prefixes of the ten detectors, in detector order. -/
def DETECTOR_PREFIXES : List String := [
  "long_message:", "code:", "power_keywords:", "simple_keywords:",
  "multi_step_reasoning", "debugging", "deep_question", "academic_topic",
  "programming:", "questions:"]

/-- The summed contributions of the nine blocks other than the power-keyword
block (in block order). -/
def restScore (text : String) (t : ClassificationThresholds) : Int :=
  let powerMatches := countKeywordMatches text POWER_KEYWORDS
  sumInts [(lengthFactor text.length t).1,
           (codeFactor (countCodeLines text) t).1,
           (simpleKeywordFactor (countKeywordMatches text SIMPLE_KEYWORDS) powerMatches).1,
           (multiStepFactor (detectMultiStepReasoning text)).1,
           (debuggingFactor (detectDebugging text)).1,
           (deepQuestionFactor (detectDeepQuestion text && decide (30 < text.length))).1,
           (academicFactor (detectAcademicTopic text)).1,
           (programmingFactor (countKeywordMatches text PROGRAMMING_LANGUAGES)).1,
           (questionFactor (countQuestionMarks text)).1]

/-- n concatenated copies of a string. -/
def repeatStr (k : String) : Nat → String
  | 0 => ""
  | n + 1 => k ++ repeatStr k n

/-! # Theorems -/

/-! ## Shared helper lemmas -/

/-- The character data of a concatenation. -/
theorem strData_append (a b : String) : (a ++ b).data = a.data ++ b.data := by
  cases a
  cases b
  rfl

/-- If the prefix test already fails within the constant head C, it fails on
any extension of C. -/
theorem charPrefix_false_of_take (P : List Char) :
    ∀ (C x : List Char), charPrefix (P.take C.length) C = false →
      charPrefix P (C ++ x) = false := by
  induction P with
  | nil => intro C x h; cases C <;> simp [charPrefix] at h
  | cons a as ih =>
    intro C x h
    cases C with
    | nil => simp [charPrefix, List.take] at h
    | cons c cs =>
      simp only [List.length_cons, List.take, charPrefix] at h ⊢
      by_cases hac : a = c
      · simp only [if_pos hac] at h ⊢
        simpa using ih cs x h
      · simp [if_neg hac]

/-- Every list is a prefix of its own extensions. -/
theorem charPrefix_self_append (l x : List Char) : charPrefix l (l ++ x) = true := by
  induction l with
  | nil => rfl
  | cons a as ih => simpa [charPrefix] using ih

/-- hasPrefix fails on a concatenation whose constant head already disagrees
with the candidate prefix. -/
theorem hasPrefix_concat_false (p c r : String)
    (h : charPrefix (p.data.take c.data.length) c.data = false) :
    hasPrefix p (c ++ r) = false := by
  unfold hasPrefix
  rw [strData_append]
  exact charPrefix_false_of_take _ _ _ h

/-- hasPrefix holds on extensions of the prefix itself. -/
theorem hasPrefix_self_concat (p r : String) : hasPrefix p (p ++ r) = true := by
  unfold hasPrefix
  rw [strData_append]
  exact charPrefix_self_append _ _

/-! ## Claim C1: the tier decision is exactly the threshold comparison -/

/-- C1.  For every message list and thresholds, classifyRequest selects the
power tier exactly when the larger of the full-conversation score and the
last-user-turn score reaches minScoreForPower; no other condition enters
the decision. -/
theorem claim1_usePower_iff_threshold (messages : List ChatMessage)
    (T : ClassificationThresholds) :
    (classifyRequest messages T).usePowerModel = true ↔
      (T.minScoreForPower : Int) ≤
        max (calculateComplexityScore (extractTextContent messages) T).score
            (calculateComplexityScore (lastUserText messages) T).score := by
  simp [classifyRequest]

/-! ## Claim C3: the score is clamped into the interval from 0 to 100 -/

/-- C3.  For every text and thresholds, the returned complexity score lies
in the closed interval from 0 to 100. -/
theorem claim3_score_range (s : String) (T : ClassificationThresholds) :
    0 ≤ (calculateComplexityScore s T).score ∧
      (calculateComplexityScore s T).score ≤ 100 := by
  refine ⟨le_max_left 0 _, ?_⟩
  exact max_le (by norm_num) (min_le_left _ _)

/-! ## Claim C6: classification of the empty message sequence (corrected) -/

/-- For any thresholds, scoring the empty string yields zero and no labels. -/
theorem score_empty (T : ClassificationThresholds) :
    calculateComplexityScore "" T = ⟨0, []⟩ := by
  have h0 : ("" : String).length = 0 := rfl
  have h1 : countCodeLines "" = 0 := by decide
  have h2 : countKeywordMatches "" POWER_KEYWORDS = 0 := by decide
  have h3 : countKeywordMatches "" SIMPLE_KEYWORDS = 0 := by decide
  have h4 : countKeywordMatches "" PROGRAMMING_LANGUAGES = 0 := by decide
  have h5 : detectMultiStepReasoning "" = false := by decide
  have h6 : detectDebugging "" = false := by decide
  have h7 : detectDeepQuestion "" = false := by decide
  have h8 : detectAcademicTopic "" = false := by decide
  have h9 : countQuestionMarks "" = 0 := by decide
  simp [calculateComplexityScore, rawScore, rawSignals, scoreParts, h0, h1, h2, h3, h4,
    h5, h6, h7, h8, h9, lengthFactor, codeFactor, powerKeywordFactor, simpleKeywordFactor,
    multiStepFactor, debuggingFactor, deepQuestionFactor, academicFactor,
    programmingFactor, questionFactor, sumInts, concatAll]

/-- C6 counterexample.  The claim quantifies over all thresholds with
non-negative fields, but with minScoreForPower equal to zero the empty
message sequence still scores 0 and 0 is not below the threshold, so the
POWER tier is selected, contradicting the claimed default-tier selection. -/
theorem claim6_counterexample :
    (classifyRequest [] ⟨0, 0, 0⟩).score = 0 ∧
      (classifyRequest [] ⟨0, 0, 0⟩).usePowerModel = true := by
  exact ⟨by decide, by decide⟩

/-- C6 (amended).  For every thresholds value whose minScoreForPower is
positive, classifying the empty message sequence yields empty extracted
text, score 0, no signals, and the default tier. -/
theorem claim6_empty_classification (T : ClassificationThresholds)
    (h : 0 < T.minScoreForPower) :
    extractTextContent [] = "" ∧
      (classifyRequest [] T).score = 0 ∧
      (classifyRequest [] T).signals = [] ∧
      (classifyRequest [] T).usePowerModel = false := by
  have hfull := score_empty T
  have hlast : lastUserText [] = "" := rfl
  have hext : extractTextContent [] = "" := rfl
  refine ⟨rfl, ?_, ?_, ?_⟩
  · simp [classifyRequest, hext, hlast, hfull]
  · simp [classifyRequest, hext, hlast, hfull]
  · simp only [classifyRequest, hext, hlast, hfull, extractTextContent, List.map_nil,
      joinSep]
    simp only [max_self]
    rw [decide_eq_false_iff_not]
    omega

/-- C6 witness at the default thresholds. -/
theorem claim6_witness :
    0 < (50 : Nat) ∧ (classifyRequest [] ⟨500, 30, 50⟩).usePowerModel = false :=
  ⟨by decide, (claim6_empty_classification ⟨500, 30, 50⟩ (by decide)).2.2.2⟩

/-! ## Claim C7: text extraction -/

/-- C7.  extractTextContent joins per-message texts with one newline: the
empty sequence yields the empty string, string content is used verbatim,
array content keeps only the text-typed parts joined by one newline, image
parts contribute nothing, and the function is total (no error conditions,
every input is covered by the equations above). -/
theorem claim7_extract_text (r : Role) (s : String) (ps : List ContentPart)
    (u : String) (m : ChatMessage) (ms : List ChatMessage) :
    extractTextContent [] = "" ∧
      extractTextContent [{ role := r, content := MessageContent.str s }] = s ∧
      extractTextContent [{ role := r, content := MessageContent.parts ps }] =
        joinSep "\n" (ps.filterMap partText) ∧
      partText (ContentPart.image_url u) = none ∧
      (ms ≠ [] → extractTextContent (m :: ms) =
        messageText m ++ "\n" ++ extractTextContent ms) := by
  refine ⟨rfl, rfl, rfl, rfl, fun h => ?_⟩
  cases ms with
  | nil => exact absurd rfl h
  | cons b bs => rfl

/-- C7 witness on a concrete two-message conversation. -/
theorem claim7_witness :
    extractTextContent
        [{ role := Role.user, content := MessageContent.str "Hello world" },
         { role := Role.assistant, content := MessageContent.str "Hi there!" }] =
      messageText { role := Role.user, content := MessageContent.str "Hello world" } ++
        "\n" ++
        extractTextContent [{ role := Role.assistant, content := MessageContent.str "Hi there!" }] :=
  (claim7_extract_text Role.user "" [] ""
      { role := Role.user, content := MessageContent.str "Hello world" }
      [{ role := Role.assistant, content := MessageContent.str "Hi there!" }]).2.2.2.2
    (by simp)

/-! ## Signal-shape lemmas: each block emits no label or exactly one label -/

theorem lengthFactor_sig (len : Nat) (t : ClassificationThresholds) :
    (lengthFactor len t).2 = [] ∨ (lengthFactor len t).2 = [longMessageSignal len] := by
  unfold lengthFactor
  split_ifs <;> simp <;> omega

theorem codeFactor_sig (n : Nat) (t : ClassificationThresholds) :
    (codeFactor n t).2 = [] ∨ (codeFactor n t).2 = [codeSignal n] := by
  unfold codeFactor
  split_ifs <;> simp

theorem powerKeywordFactor_sig (m : Nat) :
    (powerKeywordFactor m).2 = [] ∨ (powerKeywordFactor m).2 = [powerKeywordsSignal m] := by
  unfold powerKeywordFactor
  split_ifs <;> simp

theorem simpleKeywordFactor_sig (sm pm : Nat) :
    (simpleKeywordFactor sm pm).2 = [] ∨
      (simpleKeywordFactor sm pm).2 = [simpleKeywordsSignal sm] := by
  unfold simpleKeywordFactor
  split_ifs <;> simp

theorem multiStepFactor_sig (b : Bool) :
    (multiStepFactor b).2 = [] ∨ (multiStepFactor b).2 = ["multi_step_reasoning"] := by
  unfold multiStepFactor
  split_ifs <;> simp

theorem debuggingFactor_sig (b : Bool) :
    (debuggingFactor b).2 = [] ∨ (debuggingFactor b).2 = ["debugging"] := by
  unfold debuggingFactor
  split_ifs <;> simp

theorem deepQuestionFactor_sig (b : Bool) :
    (deepQuestionFactor b).2 = [] ∨ (deepQuestionFactor b).2 = ["deep_question"] := by
  unfold deepQuestionFactor
  split_ifs <;> simp

theorem academicFactor_sig (b : Bool) :
    (academicFactor b).2 = [] ∨ (academicFactor b).2 = ["academic_topic"] := by
  unfold academicFactor
  split_ifs <;> simp

theorem programmingFactor_sig (n : Nat) :
    (programmingFactor n).2 = [] ∨ (programmingFactor n).2 = [programmingSignal n] := by
  unfold programmingFactor
  split_ifs <;> simp

theorem questionFactor_sig (n : Nat) :
    (questionFactor n).2 = [] ∨ (questionFactor n).2 = [questionsSignal n] := by
  unfold questionFactor
  split_ifs <;> simp

/-! ## Prefix facts for the interpolated label families -/

theorem hp_longMessage (p : String) (n : Nat)
    (h : charPrefix (p.data.take ("long_message:" : String).data.length)
      ("long_message:" : String).data = false) :
    hasPrefix p (longMessageSignal n) = false := by
  unfold longMessageSignal
  exact hasPrefix_concat_false _ _ _ h

theorem hp_code (p : String) (n : Nat)
    (h : charPrefix (p.data.take ("code:" : String).data.length)
      ("code:" : String).data = false) :
    hasPrefix p (codeSignal n) = false := by
  unfold codeSignal
  exact hasPrefix_concat_false _ _ _ h

theorem hp_powerKeywords (p : String) (n : Nat)
    (h : charPrefix (p.data.take ("power_keywords:" : String).data.length)
      ("power_keywords:" : String).data = false) :
    hasPrefix p (powerKeywordsSignal n) = false := by
  unfold powerKeywordsSignal
  exact hasPrefix_concat_false _ _ _ h

theorem hp_simpleKeywords (p : String) (n : Nat)
    (h : charPrefix (p.data.take ("simple_keywords:" : String).data.length)
      ("simple_keywords:" : String).data = false) :
    hasPrefix p (simpleKeywordsSignal n) = false := by
  unfold simpleKeywordsSignal
  exact hasPrefix_concat_false _ _ _ h

theorem hp_programming (p : String) (n : Nat)
    (h : charPrefix (p.data.take ("programming:" : String).data.length)
      ("programming:" : String).data = false) :
    hasPrefix p (programmingSignal n) = false := by
  unfold programmingSignal
  exact hasPrefix_concat_false _ _ _ h

theorem hp_questions (p : String) (n : Nat)
    (h : charPrefix (p.data.take ("questions:" : String).data.length)
      ("questions:" : String).data = false) :
    hasPrefix p (questionsSignal n) = false := by
  unfold questionsSignal
  exact hasPrefix_concat_false _ _ _ h

/-! ## Filter and count lemmas over one emitted segment -/

theorem filter_seg_zero (p lbl : String) (seg : List String)
    (hseg : seg = [] ∨ seg = [lbl]) (h : hasPrefix p lbl = false) :
    seg.filter (fun l => hasPrefix p l) = [] := by
  rcases hseg with h1 | h1 <;> subst h1 <;> simp [List.filter_cons, h]

theorem countP_seg_zero (p lbl : String) (seg : List String)
    (hseg : seg = [] ∨ seg = [lbl]) (h : hasPrefix p lbl = false) :
    seg.countP (fun l => hasPrefix p l) = 0 := by
  rcases hseg with h1 | h1 <;> subst h1 <;> simp [List.countP_cons, h]

theorem countP_seg_le_one (pr : String → Bool) (lbl : String) (seg : List String)
    (hseg : seg = [] ∨ seg = [lbl]) : seg.countP pr ≤ 1 := by
  rcases hseg with h1 | h1 <;> subst h1
  · simp
  · simp only [List.countP_cons, List.countP_nil]
    split_ifs <;> omega

/-! ## Claim C4: the power-keyword block -/

/-- C4.  For every text and thresholds, with m the case-insensitive match
count of the text against POWER_KEYWORDS: the raw score decomposes as the
other nine block contributions plus exactly min 40 (m * 10) (zero when no
keyword matches), the returned score is that sum clamped into [0,100], and
a power_keywords label carrying m is emitted exactly when m is positive:
the sublist of power_keywords-prefixed signals is [powerKeywordsSignal m]
for positive m and empty otherwise. -/
theorem claim4_power_keyword_block (text : String) (t : ClassificationThresholds) :
    rawScore text t =
      restScore text t +
        ((min 40 (countKeywordMatches text POWER_KEYWORDS * 10) : Nat) : Int) ∧
    (calculateComplexityScore text t).score = max 0 (min 100 (rawScore text t)) ∧
    (calculateComplexityScore text t).signals.filter
        (fun l => hasPrefix "power_keywords:" l) =
      (if 0 < countKeywordMatches text POWER_KEYWORDS
       then [powerKeywordsSignal (countKeywordMatches text POWER_KEYWORDS)] else []) := by
  refine ⟨?_, rfl, ?_⟩
  · simp only [rawScore, restScore, scoreParts, List.map, sumInts]
    rcases Nat.eq_zero_or_pos (countKeywordMatches text POWER_KEYWORDS) with hm | hm
    · rw [hm]
      simp [powerKeywordFactor]
    · rw [powerKeywordFactor, if_pos hm]
      ring
  · have hsig : (calculateComplexityScore text t).signals =
        (lengthFactor text.length t).2 ++
        ((codeFactor (countCodeLines text) t).2 ++
        ((powerKeywordFactor (countKeywordMatches text POWER_KEYWORDS)).2 ++
        ((simpleKeywordFactor (countKeywordMatches text SIMPLE_KEYWORDS)
            (countKeywordMatches text POWER_KEYWORDS)).2 ++
        ((multiStepFactor (detectMultiStepReasoning text)).2 ++
        ((debuggingFactor (detectDebugging text)).2 ++
        ((deepQuestionFactor (detectDeepQuestion text && decide (30 < text.length))).2 ++
        ((academicFactor (detectAcademicTopic text)).2 ++
        ((programmingFactor (countKeywordMatches text PROGRAMMING_LANGUAGES)).2 ++
        ((questionFactor (countQuestionMarks text)).2 ++ []))))))))) := rfl
    rw [hsig]
    simp only [List.filter_append]
    rw [filter_seg_zero _ _ _ (lengthFactor_sig text.length t)
      (hp_longMessage _ _ (by decide))]
    rw [filter_seg_zero _ _ _ (codeFactor_sig (countCodeLines text) t)
      (hp_code _ _ (by decide))]
    rw [filter_seg_zero _ _ _ (simpleKeywordFactor_sig _ _)
      (hp_simpleKeywords _ _ (by decide))]
    rw [filter_seg_zero _ _ _ (multiStepFactor_sig _) (by decide)]
    rw [filter_seg_zero _ _ _ (debuggingFactor_sig _) (by decide)]
    rw [filter_seg_zero _ _ _ (deepQuestionFactor_sig _) (by decide)]
    rw [filter_seg_zero _ _ _ (academicFactor_sig _) (by decide)]
    rw [filter_seg_zero _ _ _ (programmingFactor_sig _)
      (hp_programming _ _ (by decide))]
    rw [filter_seg_zero _ _ _ (questionFactor_sig _) (hp_questions _ _ (by decide))]
    rcases Nat.eq_zero_or_pos (countKeywordMatches text POWER_KEYWORDS) with hm | hm
    · rw [hm]
      simp [powerKeywordFactor]
    · rw [if_pos hm, powerKeywordFactor, if_pos hm]
      have htrue : hasPrefix "power_keywords:" (powerKeywordsSignal
          (countKeywordMatches text POWER_KEYWORDS)) = true := by
        unfold powerKeywordsSignal
        exact hasPrefix_self_concat _ _
      simp [List.filter_cons, htrue]

/-- The signal list of one scoring pass is the concatenation of the ten
block segments, in block order. -/
theorem signals_decompose (text : String) (t : ClassificationThresholds) :
    (calculateComplexityScore text t).signals =
      (lengthFactor text.length t).2 ++
      ((codeFactor (countCodeLines text) t).2 ++
      ((powerKeywordFactor (countKeywordMatches text POWER_KEYWORDS)).2 ++
      ((simpleKeywordFactor (countKeywordMatches text SIMPLE_KEYWORDS)
          (countKeywordMatches text POWER_KEYWORDS)).2 ++
      ((multiStepFactor (detectMultiStepReasoning text)).2 ++
      ((debuggingFactor (detectDebugging text)).2 ++
      ((deepQuestionFactor (detectDeepQuestion text && decide (30 < text.length))).2 ++
      ((academicFactor (detectAcademicTopic text)).2 ++
      ((programmingFactor (countKeywordMatches text PROGRAMMING_LANGUAGES)).2 ++
      ((questionFactor (countQuestionMarks text)).2 ++ []))))))))) := rfl

/-! ## Claim C9: no detector label prefix occurs twice in one pass -/

/-- C9.  Each detector contributes at most one label per scoring pass: for
every detector label prefix, at most one signal of one calculateComplexityScore
result carries that prefix. -/
theorem claim9_no_duplicate_labels (text : String) (t : ClassificationThresholds)
    (p : String) (hp : p ∈ DETECTOR_PREFIXES) :
    ((calculateComplexityScore text t).signals.countP (fun l => hasPrefix p l)) ≤ 1 := by
  rw [signals_decompose]
  simp only [List.countP_append, List.countP_nil]
  fin_cases hp
  · rw [countP_seg_zero _ _ _ (codeFactor_sig _ t) (hp_code _ _ (by decide)),
       countP_seg_zero _ _ _ (powerKeywordFactor_sig _) (hp_powerKeywords _ _ (by decide)),
       countP_seg_zero _ _ _ (simpleKeywordFactor_sig _ _) (hp_simpleKeywords _ _ (by decide)),
       countP_seg_zero _ _ _ (multiStepFactor_sig _) (by decide),
       countP_seg_zero _ _ _ (debuggingFactor_sig _) (by decide),
       countP_seg_zero _ _ _ (deepQuestionFactor_sig _) (by decide),
       countP_seg_zero _ _ _ (academicFactor_sig _) (by decide),
       countP_seg_zero _ _ _ (programmingFactor_sig _) (hp_programming _ _ (by decide)),
       countP_seg_zero _ _ _ (questionFactor_sig _) (hp_questions _ _ (by decide))]
    have h1 := countP_seg_le_one (fun l => hasPrefix "long_message:" l) _ _
      (lengthFactor_sig text.length t)
    omega
  · rw [countP_seg_zero _ _ _ (lengthFactor_sig _ t) (hp_longMessage _ _ (by decide)),
       countP_seg_zero _ _ _ (powerKeywordFactor_sig _) (hp_powerKeywords _ _ (by decide)),
       countP_seg_zero _ _ _ (simpleKeywordFactor_sig _ _) (hp_simpleKeywords _ _ (by decide)),
       countP_seg_zero _ _ _ (multiStepFactor_sig _) (by decide),
       countP_seg_zero _ _ _ (debuggingFactor_sig _) (by decide),
       countP_seg_zero _ _ _ (deepQuestionFactor_sig _) (by decide),
       countP_seg_zero _ _ _ (academicFactor_sig _) (by decide),
       countP_seg_zero _ _ _ (programmingFactor_sig _) (hp_programming _ _ (by decide)),
       countP_seg_zero _ _ _ (questionFactor_sig _) (hp_questions _ _ (by decide))]
    have h1 := countP_seg_le_one (fun l => hasPrefix "code:" l) _ _
      (codeFactor_sig (countCodeLines text) t)
    omega
  · rw [countP_seg_zero _ _ _ (lengthFactor_sig _ t) (hp_longMessage _ _ (by decide)),
       countP_seg_zero _ _ _ (codeFactor_sig _ t) (hp_code _ _ (by decide)),
       countP_seg_zero _ _ _ (simpleKeywordFactor_sig _ _) (hp_simpleKeywords _ _ (by decide)),
       countP_seg_zero _ _ _ (multiStepFactor_sig _) (by decide),
       countP_seg_zero _ _ _ (debuggingFactor_sig _) (by decide),
       countP_seg_zero _ _ _ (deepQuestionFactor_sig _) (by decide),
       countP_seg_zero _ _ _ (academicFactor_sig _) (by decide),
       countP_seg_zero _ _ _ (programmingFactor_sig _) (hp_programming _ _ (by decide)),
       countP_seg_zero _ _ _ (questionFactor_sig _) (hp_questions _ _ (by decide))]
    have h1 := countP_seg_le_one (fun l => hasPrefix "power_keywords:" l) _ _
      (powerKeywordFactor_sig (countKeywordMatches text POWER_KEYWORDS))
    omega
  · rw [countP_seg_zero _ _ _ (lengthFactor_sig _ t) (hp_longMessage _ _ (by decide)),
       countP_seg_zero _ _ _ (codeFactor_sig _ t) (hp_code _ _ (by decide)),
       countP_seg_zero _ _ _ (powerKeywordFactor_sig _) (hp_powerKeywords _ _ (by decide)),
       countP_seg_zero _ _ _ (multiStepFactor_sig _) (by decide),
       countP_seg_zero _ _ _ (debuggingFactor_sig _) (by decide),
       countP_seg_zero _ _ _ (deepQuestionFactor_sig _) (by decide),
       countP_seg_zero _ _ _ (academicFactor_sig _) (by decide),
       countP_seg_zero _ _ _ (programmingFactor_sig _) (hp_programming _ _ (by decide)),
       countP_seg_zero _ _ _ (questionFactor_sig _) (hp_questions _ _ (by decide))]
    have h1 := countP_seg_le_one (fun l => hasPrefix "simple_keywords:" l) _ _
      (simpleKeywordFactor_sig (countKeywordMatches text SIMPLE_KEYWORDS)
        (countKeywordMatches text POWER_KEYWORDS))
    omega
  · rw [countP_seg_zero _ _ _ (lengthFactor_sig _ t) (hp_longMessage _ _ (by decide)),
       countP_seg_zero _ _ _ (codeFactor_sig _ t) (hp_code _ _ (by decide)),
       countP_seg_zero _ _ _ (powerKeywordFactor_sig _) (hp_powerKeywords _ _ (by decide)),
       countP_seg_zero _ _ _ (simpleKeywordFactor_sig _ _) (hp_simpleKeywords _ _ (by decide)),
       countP_seg_zero _ _ _ (debuggingFactor_sig _) (by decide),
       countP_seg_zero _ _ _ (deepQuestionFactor_sig _) (by decide),
       countP_seg_zero _ _ _ (academicFactor_sig _) (by decide),
       countP_seg_zero _ _ _ (programmingFactor_sig _) (hp_programming _ _ (by decide)),
       countP_seg_zero _ _ _ (questionFactor_sig _) (hp_questions _ _ (by decide))]
    have h1 := countP_seg_le_one (fun l => hasPrefix "multi_step_reasoning" l) _ _
      (multiStepFactor_sig (detectMultiStepReasoning text))
    omega
  · rw [countP_seg_zero _ _ _ (lengthFactor_sig _ t) (hp_longMessage _ _ (by decide)),
       countP_seg_zero _ _ _ (codeFactor_sig _ t) (hp_code _ _ (by decide)),
       countP_seg_zero _ _ _ (powerKeywordFactor_sig _) (hp_powerKeywords _ _ (by decide)),
       countP_seg_zero _ _ _ (simpleKeywordFactor_sig _ _) (hp_simpleKeywords _ _ (by decide)),
       countP_seg_zero _ _ _ (multiStepFactor_sig _) (by decide),
       countP_seg_zero _ _ _ (deepQuestionFactor_sig _) (by decide),
       countP_seg_zero _ _ _ (academicFactor_sig _) (by decide),
       countP_seg_zero _ _ _ (programmingFactor_sig _) (hp_programming _ _ (by decide)),
       countP_seg_zero _ _ _ (questionFactor_sig _) (hp_questions _ _ (by decide))]
    have h1 := countP_seg_le_one (fun l => hasPrefix "debugging" l) _ _
      (debuggingFactor_sig (detectDebugging text))
    omega
  · rw [countP_seg_zero _ _ _ (lengthFactor_sig _ t) (hp_longMessage _ _ (by decide)),
       countP_seg_zero _ _ _ (codeFactor_sig _ t) (hp_code _ _ (by decide)),
       countP_seg_zero _ _ _ (powerKeywordFactor_sig _) (hp_powerKeywords _ _ (by decide)),
       countP_seg_zero _ _ _ (simpleKeywordFactor_sig _ _) (hp_simpleKeywords _ _ (by decide)),
       countP_seg_zero _ _ _ (multiStepFactor_sig _) (by decide),
       countP_seg_zero _ _ _ (debuggingFactor_sig _) (by decide),
       countP_seg_zero _ _ _ (academicFactor_sig _) (by decide),
       countP_seg_zero _ _ _ (programmingFactor_sig _) (hp_programming _ _ (by decide)),
       countP_seg_zero _ _ _ (questionFactor_sig _) (hp_questions _ _ (by decide))]
    have h1 := countP_seg_le_one (fun l => hasPrefix "deep_question" l) _ _
      (deepQuestionFactor_sig (detectDeepQuestion text && decide (30 < text.length)))
    omega
  · rw [countP_seg_zero _ _ _ (lengthFactor_sig _ t) (hp_longMessage _ _ (by decide)),
       countP_seg_zero _ _ _ (codeFactor_sig _ t) (hp_code _ _ (by decide)),
       countP_seg_zero _ _ _ (powerKeywordFactor_sig _) (hp_powerKeywords _ _ (by decide)),
       countP_seg_zero _ _ _ (simpleKeywordFactor_sig _ _) (hp_simpleKeywords _ _ (by decide)),
       countP_seg_zero _ _ _ (multiStepFactor_sig _) (by decide),
       countP_seg_zero _ _ _ (debuggingFactor_sig _) (by decide),
       countP_seg_zero _ _ _ (deepQuestionFactor_sig _) (by decide),
       countP_seg_zero _ _ _ (programmingFactor_sig _) (hp_programming _ _ (by decide)),
       countP_seg_zero _ _ _ (questionFactor_sig _) (hp_questions _ _ (by decide))]
    have h1 := countP_seg_le_one (fun l => hasPrefix "academic_topic" l) _ _
      (academicFactor_sig (detectAcademicTopic text))
    omega
  · rw [countP_seg_zero _ _ _ (lengthFactor_sig _ t) (hp_longMessage _ _ (by decide)),
       countP_seg_zero _ _ _ (codeFactor_sig _ t) (hp_code _ _ (by decide)),
       countP_seg_zero _ _ _ (powerKeywordFactor_sig _) (hp_powerKeywords _ _ (by decide)),
       countP_seg_zero _ _ _ (simpleKeywordFactor_sig _ _) (hp_simpleKeywords _ _ (by decide)),
       countP_seg_zero _ _ _ (multiStepFactor_sig _) (by decide),
       countP_seg_zero _ _ _ (debuggingFactor_sig _) (by decide),
       countP_seg_zero _ _ _ (deepQuestionFactor_sig _) (by decide),
       countP_seg_zero _ _ _ (academicFactor_sig _) (by decide),
       countP_seg_zero _ _ _ (questionFactor_sig _) (hp_questions _ _ (by decide))]
    have h1 := countP_seg_le_one (fun l => hasPrefix "programming:" l) _ _
      (programmingFactor_sig (countKeywordMatches text PROGRAMMING_LANGUAGES))
    omega
  · rw [countP_seg_zero _ _ _ (lengthFactor_sig _ t) (hp_longMessage _ _ (by decide)),
       countP_seg_zero _ _ _ (codeFactor_sig _ t) (hp_code _ _ (by decide)),
       countP_seg_zero _ _ _ (powerKeywordFactor_sig _) (hp_powerKeywords _ _ (by decide)),
       countP_seg_zero _ _ _ (simpleKeywordFactor_sig _ _) (hp_simpleKeywords _ _ (by decide)),
       countP_seg_zero _ _ _ (multiStepFactor_sig _) (by decide),
       countP_seg_zero _ _ _ (debuggingFactor_sig _) (by decide),
       countP_seg_zero _ _ _ (deepQuestionFactor_sig _) (by decide),
       countP_seg_zero _ _ _ (academicFactor_sig _) (by decide),
       countP_seg_zero _ _ _ (programmingFactor_sig _) (hp_programming _ _ (by decide))]
    have h1 := countP_seg_le_one (fun l => hasPrefix "questions:" l) _ _
      (questionFactor_sig (countQuestionMarks text))
    omega

/-- C9 witness: a concrete pass and prefix. -/
theorem claim9_witness :
    "code:" ∈ DETECTOR_PREFIXES ∧
      ((calculateComplexityScore "Hello world" ⟨500, 30, 50⟩).signals.countP
        (fun l => hasPrefix "code:" l)) ≤ 1 :=
  ⟨by decide, claim9_no_duplicate_labels "Hello world" ⟨500, 30, 50⟩ "code:" (by decide)⟩

/-! ## Claim C8: monotonicity under appending power keywords (corrected) -/

/-- A prefix of l is still a prefix after extending l on the right. -/
theorem charPrefix_append_right (sub : List Char) :
    ∀ (l b : List Char), charPrefix sub l = true → charPrefix sub (l ++ b) = true := by
  induction sub with
  | nil => intro l b _; rfl
  | cons x xs ih =>
    intro l b h
    cases l with
    | nil => simp [charPrefix] at h
    | cons y ys =>
      simp only [charPrefix, List.cons_append] at h ⊢
      by_cases hxy : x = y
      · simp only [if_pos hxy] at h ⊢
        exact ih ys b h
      · simp [if_neg hxy] at h

/-- The empty list is a substring of everything. -/
theorem strIncludes_nil (s : List Char) : strIncludes s [] = true := by
  cases s <;> simp [strIncludes, charPrefix]

/-- A substring remains a substring after extending the text on the right. -/
theorem strIncludes_append_left (sub : List Char) :
    ∀ (a b : List Char), strIncludes a sub = true → strIncludes (a ++ b) sub = true := by
  intro a
  induction a with
  | nil =>
    intro b h
    simp only [strIncludes, List.isEmpty_iff] at h
    subst h
    simpa using strIncludes_nil b
  | cons c rest ih =>
    intro b h
    simp only [strIncludes, Bool.or_eq_true] at h ⊢
    rcases h with h | h
    · exact Or.inl (charPrefix_append_right _ _ _ h)
    · exact Or.inr (ih b h)

/-- Lowercasing distributes over concatenation. -/
theorem lowerData_append (s t : String) :
    lowerData (s ++ t) = lowerData s ++ lowerData t := by
  unfold lowerData
  rw [strData_append, List.map_append]

/-- Appending any text never removes a keyword match. -/
theorem countKeywordMatches_append_mono (s t : String) (kws : List String) :
    countKeywordMatches s kws ≤ countKeywordMatches (s ++ t) kws := by
  unfold countKeywordMatches
  rw [← List.countP_eq_length_filter, ← List.countP_eq_length_filter]
  refine List.countP_mono_left ?_
  intro kw _ h
  rw [lowerData_append]
  exact strIncludes_append_left _ _ _ h

/-- The power-keyword contribution is monotone in the match count. -/
theorem powerKeywordFactor_mono (m m' : Nat) (h : m ≤ m') :
    (powerKeywordFactor m).1 ≤ (powerKeywordFactor m').1 := by
  unfold powerKeywordFactor
  split_ifs <;> simp <;> omega

/-- C8 counterexample.  The claim states that appending further occurrences
of a power keyword never decreases the total score.  Take eleven
code-statement lines ending in the power keyword async, with
minCodeLinesForPower = 11: the code-volume block contributes its flat 5
points (11 lines is not above the gate but above 10) and the keyword block
10 points, score 15.  Appending one more occurrence of async adds a twelfth
code line, which crosses the gate and drops the code contribution to
min 25 ((12 - 11) / 2) = 0 while the keyword match count stays 1, so the
total score falls from 15 to 10. -/
theorem claim8_counterexample :
    "async" ∈ POWER_KEYWORDS ∧
    strIncludes (lowerData "if\nif\nif\nif\nif\nif\nif\nif\nif\nif\nasync\n")
      (lowerData "async") = true ∧
    (calculateComplexityScore "if\nif\nif\nif\nif\nif\nif\nif\nif\nif\nasync\n"
      ⟨500, 11, 50⟩).score = 15 ∧
    (calculateComplexityScore ("if\nif\nif\nif\nif\nif\nif\nif\nif\nif\nasync\n" ++ "async")
      ⟨500, 11, 50⟩).score = 10 :=
  ⟨by decide, by decide, by decide, by decide⟩

/-- C8 (amended).  Appending one or more additional occurrences of a power
keyword never decreases the power-keyword match count or the power-keyword
block contribution min 40 (matches * 10); the TOTAL score can still
decrease, because the code-volume block is not monotone under appends (see
the counterexample). -/
theorem claim8_keyword_contribution_monotone (s k : String) (n : Nat)
    (hk : k ∈ POWER_KEYWORDS) (hn : 1 ≤ n) :
    countKeywordMatches s POWER_KEYWORDS ≤
      countKeywordMatches (s ++ repeatStr k n) POWER_KEYWORDS ∧
    (powerKeywordFactor (countKeywordMatches s POWER_KEYWORDS)).1 ≤
      (powerKeywordFactor (countKeywordMatches (s ++ repeatStr k n) POWER_KEYWORDS)).1 := by
  have hmono := countKeywordMatches_append_mono s (repeatStr k n) POWER_KEYWORDS
  exact ⟨hmono, powerKeywordFactor_mono _ _ hmono⟩

/-- C8 witness at a concrete text, keyword and repetition count. -/
theorem claim8_witness :
    "debug" ∈ POWER_KEYWORDS ∧ 1 ≤ 1 ∧
      (powerKeywordFactor (countKeywordMatches "fix a bug" POWER_KEYWORDS)).1 ≤
        (powerKeywordFactor
          (countKeywordMatches ("fix a bug" ++ repeatStr "debug" 1) POWER_KEYWORDS)).1 :=
  ⟨by decide, le_refl 1,
   (claim8_keyword_contribution_monotone "fix a bug" "debug" 1 (by decide) (le_refl 1)).2⟩


/-! ## Claim C2: the single default-to-power fallback (corrected) -/

/-- C2 (amended).  For a non-streaming request: the call parameters carry
exactly the selected model together with the request messages, temperature
and max-token constraint.  If the tier selected by classification is
default and the default call fails with a thrown Error instance, exactly
one retry is made against the power backend with the same messages,
temperature and max tokens; on success the outcome carries tier power and
the original signals with fallback_after_error appended; if the fallback
call itself fails its error propagates after exactly those two calls.  If
the selected tier is power and the call fails, the error propagates after
exactly one call (no retry).  (Amendment relative to the frozen claim: the
fallback requires the thrown value to be an instanceof Error; a non-Error
throw propagates without any retry — see the counterexample and claim C10.) -/
theorem claim2_fallback_rule (config : RouterConfig) (be : Backends)
    (req : ChatCompletionRequest) (msg : String) (c : Completion) (e2 eP : Thrown) :
    mkParams config.powerModel req =
      ⟨config.powerModel.model, req.messages, req.temperature, req.max_tokens⟩ ∧
    ((classifyRequest req.messages config.thresholds).usePowerModel = false →
      be.defaultCall (mkParams config.defaultModel req) = .error (Thrown.error msg) →
      be.powerCall (mkParams config.powerModel req) = .ok c →
      routeRequest config be req =
        (.ok ⟨mkResponse c
            ⟨Tier.power, config.powerModel.model,
             (classifyRequest req.messages config.thresholds).score,
             (classifyRequest req.messages config.thresholds).signals ++
               ["fallback_after_error"]⟩,
          Tier.power, classifyRequest req.messages config.thresholds⟩,
         [(Tier.default, mkParams config.defaultModel req),
          (Tier.power, mkParams config.powerModel req)])) ∧
    ((classifyRequest req.messages config.thresholds).usePowerModel = false →
      be.defaultCall (mkParams config.defaultModel req) = .error (Thrown.error msg) →
      be.powerCall (mkParams config.powerModel req) = .error e2 →
      routeRequest config be req =
        (.error e2,
         [(Tier.default, mkParams config.defaultModel req),
          (Tier.power, mkParams config.powerModel req)])) ∧
    ((classifyRequest req.messages config.thresholds).usePowerModel = true →
      be.powerCall (mkParams config.powerModel req) = .error eP →
      routeRequest config be req =
        (.error eP, [(Tier.power, mkParams config.powerModel req)])) := by
  refine ⟨rfl, ?_, ?_, ?_⟩
  · intro hup hdef hpow
    unfold routeRequest
    generalize hcls : classifyRequest req.messages config.thresholds = cls at hup hdef hpow ⊢
    dsimp only
    rw [hup]
    simp only [Bool.false_eq_true, if_false]
    rw [hdef]
    dsimp only
    simp [Thrown.isError, hpow]
  · intro hup hdef hpow
    unfold routeRequest
    generalize hcls : classifyRequest req.messages config.thresholds = cls at hup hdef hpow ⊢
    dsimp only
    rw [hup]
    simp only [Bool.false_eq_true, if_false]
    rw [hdef]
    dsimp only
    simp [Thrown.isError, hpow]
  · intro hup hpow
    unfold routeRequest
    generalize hcls : classifyRequest req.messages config.thresholds = cls at hup hpow ⊢
    dsimp only
    rw [hup]
    simp only [if_true]
    rw [hpow]
    dsimp only
    simp [Thrown.isError]

/-- C2 witness: a concrete fallback success and a concrete power-tier
propagation, by applying the fallback theorem at concrete inputs. -/
theorem claim2_witness :
    (routeRequest
        ⟨5555, "h", ⟨Provider.ollama, "m1", "u1", none⟩,
         ⟨Provider.anthropic, "m2", "u2", none⟩, ⟨500, 30, 50⟩, false⟩
        ⟨fun _ => .error (Thrown.error "boom"), fun _ => .ok ⟨"id", 1, "m2", [], none⟩⟩
        { messages := [] } =
      (.ok ⟨mkResponse ⟨"id", 1, "m2", [], none⟩
          ⟨Tier.power, "m2",
           (classifyRequest [] ⟨500, 30, 50⟩).score,
           (classifyRequest [] ⟨500, 30, 50⟩).signals ++ ["fallback_after_error"]⟩,
        Tier.power, classifyRequest [] ⟨500, 30, 50⟩⟩,
       [(Tier.default, mkParams ⟨Provider.ollama, "m1", "u1", none⟩ { messages := [] }),
        (Tier.power, mkParams ⟨Provider.anthropic, "m2", "u2", none⟩ { messages := [] })])) ∧
    (routeRequest
        ⟨5555, "h", ⟨Provider.ollama, "m1", "u1", none⟩,
         ⟨Provider.anthropic, "m2", "u2", none⟩, ⟨500, 30, 0⟩, false⟩
        ⟨fun _ => .ok ⟨"id", 1, "m1", [], none⟩, fun _ => .error (Thrown.error "powfail")⟩
        { messages := [] } =
      (.error (Thrown.error "powfail"),
       [(Tier.power, mkParams ⟨Provider.anthropic, "m2", "u2", none⟩ { messages := [] })])) :=
  ⟨(claim2_fallback_rule _ _ _ "boom" ⟨"id", 1, "m2", [], none⟩
      Thrown.other Thrown.other).2.1 (by decide) rfl rfl,
   (claim2_fallback_rule _ _ _ "x" ⟨"id", 1, "m2", [], none⟩
      Thrown.other (Thrown.error "powfail")).2.2.2 (by decide) rfl⟩

/-- C2 counterexample.  A request classified to the default tier whose
default call fails with a NON-Error thrown value: the power backend would
succeed, yet routeRequest makes no retry and propagates the thrown value
after a single backend call, refuting the unconditional fallback stated by
the frozen claim. -/
theorem claim2_counterexample :
    (classifyRequest [] ⟨500, 30, 50⟩).usePowerModel = false ∧
    (routeRequest
        ⟨5555, "h", ⟨Provider.ollama, "m1", "u1", none⟩,
         ⟨Provider.anthropic, "m2", "u2", none⟩, ⟨500, 30, 50⟩, false⟩
        ⟨fun _ => .error Thrown.other, fun _ => .ok ⟨"id", 1, "m2", [], none⟩⟩
        { messages := [] }) =
      (.error Thrown.other,
       [(Tier.default, mkParams ⟨Provider.ollama, "m1", "u1", none⟩ { messages := [] })]) :=
  ⟨by decide, by decide⟩

/-! ## Claim C10: the fallback is gated on instanceof Error -/

/-- C10.  When the default tier is selected and the default call throws a
value that is not an Error instance, routeRequest propagates that value at
once: exactly one backend call is made and no fallback is attempted (so
the fallback can only ever run for thrown Error instances). -/
theorem claim10_non_error_propagates (config : RouterConfig) (be : Backends)
    (req : ChatCompletionRequest) (e : Thrown)
    (hup : (classifyRequest req.messages config.thresholds).usePowerModel = false)
    (hdef : be.defaultCall (mkParams config.defaultModel req) = .error e)
    (he : e.isError = false) :
    routeRequest config be req =
      (.error e, [(Tier.default, mkParams config.defaultModel req)]) := by
  unfold routeRequest
  generalize hcls : classifyRequest req.messages config.thresholds = cls at hup hdef ⊢
  dsimp only
  rw [hup]
  simp only [Bool.false_eq_true, if_false]
  rw [hdef]
  dsimp only
  simp [he]

/-- C10 witness at a concrete non-Error throw. -/
theorem claim10_witness :
    routeRequest
        ⟨5555, "h", ⟨Provider.ollama, "m1", "u1", none⟩,
         ⟨Provider.anthropic, "m2", "u2", none⟩, ⟨500, 30, 50⟩, false⟩
        ⟨fun _ => .error Thrown.other, fun _ => .ok ⟨"id", 1, "m2", [], none⟩⟩
        { messages := [] } =
      (.error Thrown.other,
       [(Tier.default, mkParams ⟨Provider.ollama, "m1", "u1", none⟩ { messages := [] })]) :=
  claim10_non_error_propagates _ _ _ Thrown.other (by decide) rfl rfl

/-! ## Claim C5: streaming preserves the upstream chunk sequence -/

/-- The yield loop is exactly a map of the normalization over the upstream
sequence. -/
theorem emitChunks_eq_map (l : List UpstreamChunk) :
    emitChunks l = l.map normalizeChunk := by
  induction l with
  | nil => rfl
  | cons c cs ih => simp [emitChunks, ih]

/-- C5.  For every streaming request: when the selected backend stream
opens, the produced chunk sequence is exactly the upstream sequence with
each chunk normalized, in upstream order with no chunk reordered, dropped
or added (same length, pointwise normalization), and the upstream terminal
event (normal end or mid-stream error) is passed through; exactly one
backend call is recorded, so no fallback call exists on the streaming
path; when opening the stream fails the error propagates, again after
exactly one call.  The normalization of one chunk keeps id, created
timestamp, model, and per-choice index, delta role, delta content and
finish reason. -/
theorem claim5_streaming_order (config : RouterConfig) (sbe : StreamBackends)
    (req : ChatCompletionRequest) (up : UpstreamStream) (e : Thrown) :
    ((classifyRequest req.messages config.thresholds).usePowerModel = false →
      sbe.defaultStream (mkParams config.defaultModel req) = .ok up →
      routeStreamingRequest config sbe req =
        (.ok (emitChunks up.chunks, up.terminal),
         [(Tier.default, mkParams config.defaultModel req)])) ∧
    ((classifyRequest req.messages config.thresholds).usePowerModel = true →
      sbe.powerStream (mkParams config.powerModel req) = .ok up →
      routeStreamingRequest config sbe req =
        (.ok (emitChunks up.chunks, up.terminal),
         [(Tier.power, mkParams config.powerModel req)])) ∧
    ((classifyRequest req.messages config.thresholds).usePowerModel = false →
      sbe.defaultStream (mkParams config.defaultModel req) = .error e →
      routeStreamingRequest config sbe req =
        (.error e, [(Tier.default, mkParams config.defaultModel req)])) ∧
    ((classifyRequest req.messages config.thresholds).usePowerModel = true →
      sbe.powerStream (mkParams config.powerModel req) = .error e →
      routeStreamingRequest config sbe req =
        (.error e, [(Tier.power, mkParams config.powerModel req)])) ∧
    (emitChunks up.chunks).length = up.chunks.length ∧
    (∀ (i : Nat) (h1 : i < (emitChunks up.chunks).length) (h2 : i < up.chunks.length),
      (emitChunks up.chunks).get ⟨i, h1⟩ = normalizeChunk (up.chunks.get ⟨i, h2⟩)) ∧
    (∀ c : UpstreamChunk, normalizeChunk c =
      ⟨c.id, c.created, c.model,
       c.choices.map (fun ch => ⟨ch.index, ch.deltaRole, ch.deltaContent,
         ch.finish_reason⟩)⟩) := by
  refine ⟨?_, ?_, ?_, ?_, ?_, ?_, fun c => rfl⟩
  · intro hup hcall
    unfold routeStreamingRequest
    generalize hcls : classifyRequest req.messages config.thresholds = cls at hup hcall ⊢
    dsimp only
    rw [hup]
    simp only [Bool.false_eq_true, if_false]
    rw [hcall]
  · intro hup hcall
    unfold routeStreamingRequest
    generalize hcls : classifyRequest req.messages config.thresholds = cls at hup hcall ⊢
    dsimp only
    rw [hup]
    simp only [if_true]
    rw [hcall]
  · intro hup hcall
    unfold routeStreamingRequest
    generalize hcls : classifyRequest req.messages config.thresholds = cls at hup hcall ⊢
    dsimp only
    rw [hup]
    simp only [Bool.false_eq_true, if_false]
    rw [hcall]
  · intro hup hcall
    unfold routeStreamingRequest
    generalize hcls : classifyRequest req.messages config.thresholds = cls at hup hcall ⊢
    dsimp only
    rw [hup]
    simp only [if_true]
    rw [hcall]
  · simp [emitChunks_eq_map]
  · intro i h1 h2
    simp [emitChunks_eq_map, List.get_map]

/-- C5 witness: a two-chunk upstream stream that errors mid-stream, routed
on the default tier; the output is the two normalized chunks in order, the
mid-stream error is passed through, and exactly one backend call is made. -/
theorem claim5_witness :
    routeStreamingRequest
        ⟨5555, "h", ⟨Provider.ollama, "m1", "u1", none⟩,
         ⟨Provider.anthropic, "m2", "u2", none⟩, ⟨500, 30, 50⟩, false⟩
        ⟨fun _ => .ok ⟨[⟨"c1", 1, "m1", [⟨0, some Role.assistant, some "he", none⟩]⟩,
                        ⟨"c2", 2, "m1", [⟨0, none, some "llo", some FinishReason.stop⟩]⟩],
                       some (Thrown.error "mid-stream")⟩,
         fun _ => .ok ⟨[], none⟩⟩
        { messages := [] } =
      (.ok (emitChunks [⟨"c1", 1, "m1", [⟨0, some Role.assistant, some "he", none⟩]⟩,
                        ⟨"c2", 2, "m1", [⟨0, none, some "llo", some FinishReason.stop⟩]⟩],
            some (Thrown.error "mid-stream")),
       [(Tier.default, mkParams ⟨Provider.ollama, "m1", "u1", none⟩ { messages := [] })]) :=
  (claim5_streaming_order
      ⟨5555, "h", ⟨Provider.ollama, "m1", "u1", none⟩,
       ⟨Provider.anthropic, "m2", "u2", none⟩, ⟨500, 30, 50⟩, false⟩
      ⟨fun _ => .ok ⟨[⟨"c1", 1, "m1", [⟨0, some Role.assistant, some "he", none⟩]⟩,
                      ⟨"c2", 2, "m1", [⟨0, none, some "llo", some FinishReason.stop⟩]⟩],
                     some (Thrown.error "mid-stream")⟩,
       fun _ => .ok ⟨[], none⟩⟩
      { messages := [] }
      ⟨[⟨"c1", 1, "m1", [⟨0, some Role.assistant, some "he", none⟩]⟩,
        ⟨"c2", 2, "m1", [⟨0, none, some "llo", some FinishReason.stop⟩]⟩],
       some (Thrown.error "mid-stream")⟩
      Thrown.other).1 (by decide) rfl
